import Mathlib

/-
Verification development for `src/construct_cmake_project.py`.

The script is a linear pipeline: parse arguments, check that the external
tools `cmake` (and, when database refinement is requested, `compdb`) are on
the search path, create and enter a build directory, run cmake, optionally
refine the compilation database inside a scoped temporary directory, and
optionally compile.

Shallow embedding conventions:
  * `Args` embeds the `argparse.Namespace` produced by `create_option_parser`;
    `parse_args` models the parser for the separate-token option forms
    (`-t 8`, not `-t8`/`--threads=8`).  Crucially, `--not_update_clangd_db`
    is declared with `action='store_false'` AND `default=False` in the
    source, so the field starts at `false` and the flag stores `false`.
  * External effects are modelled by an explicit state `PState` (current
    working directory, set of directories, files as an association list
    keyed by (directory, file name), and a trace of the shell command
    strings passed to `runCmd`).  An `Env` fixes which programs are on the
    search path and whether each external tool invocation succeeds.
  * `runCmd` builds command strings exactly as the Python source does
    (f-string interpolation) and a small shell model `shellRun` interprets
    them by whitespace tokenization, which is where unquoted interpolation
    of the build directory becomes observable.
  * Python exceptions are the values of `PyExc`; a step returns its mutated
    state together with `Option PyExc`.  `main` mirrors the `try/except`
    structure of the source: around `try_construct_cmake_files` only
    `subprocess.CalledProcessError` is caught, around the other two steps
    both `OSError` and `CalledProcessError` are caught.
  * `tempfile.TemporaryDirectory()` is modelled as acquiring the fixed
    directory name `TMPDIR` and releasing it (`tmpCleanup`) on every exit
    path of the `with` block, as the context manager guarantees; theorems
    that need the name to be fresh state that as a hypothesis.
-/

set_option autoImplicit false

/-- `COMPILATION_DATABASE` constant of the script. -/
def COMPILATION_DATABASE : String := "compile_commands.json"

/-- Default for `-t / --threads` (`DefaultValue.THREADS`). -/
def DefaultValue.THREADS : Int := 4

/-- Default for `-b / --build` (`DefaultValue.BUILD`). -/
def DefaultValue.BUILD : String := "./build"

/-- The `argparse.Namespace` fields read by the script. -/
structure Args where
  build : String
  compile : Bool
  threads : Int
  not_update_clangd_db : Bool
deriving Repr, DecidableEq

/-- Namespace defaults as declared in `create_option_parser`:
`--not_update_clangd_db` is given `default=False` explicitly. -/
def defaultArgs : Args :=
  { build := DefaultValue.BUILD
    compile := false
    threads := DefaultValue.THREADS
    not_update_clangd_db := false }

/-- Accumulate a decimal digit string into a number; `none` on any
non-digit character. -/
def decDigitsAux : List Char → Nat → Option Nat
  | [], acc => some acc
  | c :: cs, acc =>
    if c.isDigit then decDigitsAux cs (acc * 10 + (c.toNat - 48)) else none

/-- A nonempty all-digit character list as a number. -/
def decDigits? : List Char → Option Nat
  | [] => none
  | l => decDigitsAux l 0

/-- Python `int(s)` on an optionally signed digit string (the `type=int`
conversion argparse applies to `-t / --threads` values). -/
def parseInt? (s : String) : Option Int :=
  match s.data with
  | '-' :: rest => (decDigits? rest).map (fun n => -(n : Int))
  | '+' :: rest => (decDigits? rest).map (fun n => (n : Int))
  | l => (decDigits? l).map (fun n => (n : Int))

/-- Token-level model of the argparse loop for the options registered in
`create_option_parser`.  `-b / --build` and `-t / --threads` consume a value
token; `-c / --compile` stores `true`; `--not_update_clangd_db` stores
`false` (`action='store_false'`).  Anything else (unknown options,
positionals, a missing value, a value that is not an integer, and
`-v / --version`, which terminates the process instead of returning a
namespace) yields no parsed configuration. -/
def parse_tokens : List String → Args → Option Args
  | [], a => some a
  | "-b" :: v :: rest, a => parse_tokens rest { a with build := v }
  | "--build" :: v :: rest, a => parse_tokens rest { a with build := v }
  | "-c" :: rest, a => parse_tokens rest { a with compile := true }
  | "--compile" :: rest, a => parse_tokens rest { a with compile := true }
  | "-t" :: v :: rest, a =>
    match parseInt? v with
    | some n => parse_tokens rest { a with threads := n }
    | none => none
  | "--threads" :: v :: rest, a =>
    match parseInt? v with
    | some n => parse_tokens rest { a with threads := n }
    | none => none
  | "--not_update_clangd_db" :: rest, a =>
    parse_tokens rest { a with not_update_clangd_db := false }
  | _, _ => none

/-- `create_option_parser().parse_args(argv)`. -/
def parse_args (argv : List String) : Option Args :=
  parse_tokens argv defaultArgs

/-- Python exceptions distinguished by `main`'s `except` clauses. -/
inductive PyExc where
  | calledProcessError
  | osError
deriving Repr, DecidableEq

/-- How `main` terminates: a `return code`, or an exception escaping `main`
uncaught (the interpreter then aborts with a traceback). -/
inductive Outcome where
  | exit (code : Int)
  | uncaught (e : PyExc)
deriving Repr, DecidableEq

/-- Behaviour of the external world: which programs `command -v` finds and
whether each external tool invocation succeeds, plus the compilation
database contents the tools produce. -/
structure Env where
  onPath : String → Bool
  cmakeConfigureOk : Bool
  compdbOk : Bool
  cmakeBuildOk : Bool
  dbContent : String
  compdbOutput : String

/-- Process / filesystem state threaded through the pipeline. -/
structure PState where
  cwd : String
  dirs : List String
  files : List ((String × String) × String)
  trace : List String
deriving Repr, DecidableEq

/-- Split a character list at every occurrence of `sep` (the second
argument accumulates the current field, reversed). -/
def splitChars (sep : Char) : List Char → List Char → List (List Char)
  | [], acc => [acc.reverse]
  | c :: cs, acc =>
    if c = sep then acc.reverse :: splitChars sep cs []
    else splitChars sep cs (c :: acc)

/-- Split a string at every occurrence of the character `sep`. -/
def splitOnChar (sep : Char) (s : String) : List String :=
  (splitChars sep s.data []).map (fun l => String.mk l)

/-- Whitespace tokenization performed by the shell on a `shell=True`
command string (quoting aside). -/
def shellTokens (s : String) : List String :=
  (splitOnChar ' ' s).filter (fun t => t ≠ "")

/-- Strip one level of surrounding double quotes from a shell token. -/
def unquote (s : String) : String :=
  match s.data with
  | '"' :: rest =>
    if rest ≠ [] ∧ rest.getLast? = some '"' then String.mk rest.dropLast else s
  | _ => s

/-- Resolve a path of the shapes the script uses (`./name` or `dir/name`)
to a (directory, file name) key; `./` means the current working
directory. -/
def splitPath (st : PState) (p : String) : String × String :=
  match splitOnChar '/' p with
  | [d, n] => if d = "." then (st.cwd, n) else (d, n)
  | _ => (st.cwd, p)

/-- Content of file `n` in directory `d`, if present. -/
def getFile (st : PState) (d n : String) : Option String :=
  (st.files.find? (fun e => e.1 = (d, n))).map (fun e => e.2)

/-- Create or overwrite file `n` in directory `d` with content `c`. -/
def setFile (st : PState) (d n c : String) : PState :=
  { st with files := ((d, n), c) :: st.files.filter (fun e => e.1 ≠ (d, n)) }

/-- Whether file `n` exists in directory `d`. -/
def hasFile (st : PState) (d n : String) : Bool :=
  (getFile st d n).isSome

/-- `mv src dst`: fails when the source file does not exist, otherwise
removes the source entry and writes the destination entry. -/
def movePath (st : PState) (src dst : String) : PState × Bool :=
  let s := splitPath st src
  let d := splitPath st dst
  match getFile st s.1 s.2 with
  | none => (st, false)
  | some c =>
    (setFile { st with files := st.files.filter (fun e => e.1 ≠ s) } d.1 d.2 c, true)

/-- Delete directory `d` and every file under it (never fails; matches
`shutil.rmtree` as used by `TemporaryDirectory.cleanup`, which ignores an
already-removed tree). -/
def tmpCleanup (st : PState) (d : String) : PState :=
  { st with
      dirs := st.dirs.filter (fun x => x ≠ d)
      files := st.files.filter (fun e => e.1.1 ≠ d) }

/-- A word the model accepts as a plain `mkdir` operand: nonempty, built
only of alphanumeric characters and `.` `/` `_` `-`, and not beginning
with `-` (which `mkdir` would parse as an option).  Any other word —
quote characters (shell syntax error), command separators such as `;`
(the shell would run a further command whose status decides the result),
globs, `$`-expansions, option-like words (`mkdir` rejects them) — is
conservatively modelled as making the command exit nonzero, as the real
shell or `mkdir` reports an error or runs something other than a single
directory creation for such words; no theorem relies on the success of
such a command. -/
def plainOperand (t : String) : Bool :=
  t != "" &&
  t.data.all (fun c => c.isAlphanum || c == '.' || c == '/' || c == '_' || c == '-') &&
  t.data.head? != some '-'

/-- Interpretation of the concrete shell command shapes the script issues,
selected by whitespace tokenization of the command string.  Returns the new
state and whether the command exited with status 0. -/
def shellRun (env : Env) (st : PState) (cmd : String) : PState × Bool :=
  match shellTokens cmd with
  | "mkdir" :: "-p" :: ops =>
    if ops.isEmpty then (st, false)
    else if ops.all plainOperand then ({ st with dirs := ops ++ st.dirs }, true)
    else (st, false)
  | ["cmake", "../CMakeLists.txt", "-DCMAKE_EXPORT_COMPILE_COMMANDS=ON", "-B./"] =>
    if env.cmakeConfigureOk then
      (setFile st st.cwd COMPILATION_DATABASE env.dbContent, true)
    else (st, false)
  | ["mv", src, dst] => movePath st src dst
  | ["compdb", "-p", d, "list", ">", f] =>
    let target := unquote f
    let st1 := setFile st st.cwd target ""
    if env.compdbOk && hasFile st1 d COMPILATION_DATABASE then
      (setFile st1 st.cwd target env.compdbOutput, true)
    else (st1, false)
  | ["ls", d] => (st, st.dirs.contains d)
  | ["rm", "-r", d] =>
    if st.dirs.contains d then (tmpCleanup st d, true) else (st, false)
  | ["cmake", "--build", "./", "--parallel", _] => (st, env.cmakeBuildOk)
  | _ => (st, false)

/-- `runCmd`: `subprocess.run(args, shell=True)` followed by
`check_returncode()`, which raises `CalledProcessError` on a nonzero
status.  The issued command string is recorded on the trace. -/
def runCmd (env : Env) (st : PState) (cmd : String) : PState × Option PyExc :=
  let r := shellRun env { st with trace := st.trace ++ [cmd] } cmd
  (r.1, if r.2 then none else some PyExc.calledProcessError)

/-- Sequencing of `runCmd` calls inside one Python function body: once a
call has raised, the following calls do not run. -/
def seqCmd (env : Env) (r : PState × Option PyExc) (cmd : String) : PState × Option PyExc :=
  match r.2 with
  | some e => (r.1, some e)
  | none => runCmd env r.1 cmd

/-- `terminal_program_exists`: `subprocess.check_output(f'command -v
{programName}', shell=True)` succeeds exactly when the program is on the
search path; the probe has no filesystem effect. -/
def terminal_program_exists (env : Env) (programName : String) : Bool :=
  env.onPath programName

/-- Diagnostic returned when `cmake` is missing (colour escapes elided). -/
def cmakeMissingMsg : String := "Could not locate `cmake`. Aborting..."

/-- Diagnostic returned when `compdb` is missing (colour escapes elided). -/
def compdbMissingMsg : String :=
  "Could not locate compdb.\ncompdb is used to create a compilation database for the purpose of providing better diagnostics"

/-- `find_required_tools`: check `cmake` first; check `compdb` only when
`not args.not_update_clangd_db`; return the diagnostic for the first
missing tool, `None` otherwise. -/
def find_required_tools (env : Env) (args : Args) : Option String :=
  if !(terminal_program_exists env "cmake") then
    some cmakeMissingMsg
  else if !args.not_update_clangd_db && !(terminal_program_exists env "compdb") then
    some compdbMissingMsg
  else
    none

/-- `os.chdir(p)`: raises `OSError` (`FileNotFoundError`) when `p` is not
an existing directory. -/
def os_chdir (st : PState) (p : String) : PState × Option PyExc :=
  if st.dirs.contains p then ({ st with cwd := p }, none)
  else (st, some PyExc.osError)

/-- `try_construct_cmake_files(buildDirectory)`: `mkdir -p` via the shell,
`os.chdir`, then the cmake configure invocation. -/
def try_construct_cmake_files (env : Env) (st : PState) (buildDirectory : String) :
    PState × Option PyExc :=
  match runCmd env st s!"mkdir -p {buildDirectory}" with
  | (st1, some e) => (st1, some e)
  | (st1, none) =>
    match os_chdir st1 buildDirectory with
    | (st2, some e) => (st2, some e)
    | (st2, none) =>
      runCmd env st2 "cmake ../CMakeLists.txt -DCMAKE_EXPORT_COMPILE_COMMANDS=ON -B./"

/-- Name handed out by the model of `tempfile.TemporaryDirectory()`. -/
def TMPDIR : String := "tmpdir0"

/-- `compile_database()`: inside `with tempfile.TemporaryDirectory() as
tmp_dir`, move the database into the temporary directory, regenerate it via
`compdb` with shell output redirection, `ls` and `rm -r` the temporary
directory; the context manager removes the temporary directory on every
exit path, normal or exceptional. -/
def compile_database (env : Env) (st : PState) : PState × Option PyExc :=
  let tmp_dir := TMPDIR
  let stAcq := { st with dirs := tmp_dir :: st.dirs }
  let r1 := runCmd env stAcq s!"mv ./{COMPILATION_DATABASE} {tmp_dir}/{COMPILATION_DATABASE}"
  let r2 := seqCmd env r1 s!"compdb -p {tmp_dir} list > \"{COMPILATION_DATABASE}\""
  let r3 := seqCmd env r2 s!"ls {tmp_dir}"
  let r4 := seqCmd env r3 s!"rm -r {tmp_dir}"
  (tmpCleanup r4.1 tmp_dir, r4.2)

/-- `compile_cmake_project(threadCount)`. -/
def compile_cmake_project (env : Env) (st : PState) (threadCount : Int) :
    PState × Option PyExc :=
  runCmd env st s!"cmake --build ./ --parallel {threadCount}"

/-- `main()` for an already-parsed namespace: tool check, construction
(catching only `CalledProcessError`), optional database refinement and
optional compilation (each catching `OSError` and `CalledProcessError`),
then return 0. -/
def script_main (env : Env) (st : PState) (args : Args) : PState × Outcome :=
  match find_required_tools env args with
  | some _ => (st, Outcome.exit 1)
  | none =>
    let r1 := try_construct_cmake_files env st args.build
    match r1.2 with
    | some PyExc.calledProcessError => (r1.1, Outcome.exit 1)
    | some PyExc.osError => (r1.1, Outcome.uncaught PyExc.osError)
    | none =>
      let r2 := if args.not_update_clangd_db then (r1.1, (none : Option PyExc))
                else compile_database env r1.1
      match r2.2 with
      | some _ => (r2.1, Outcome.exit 1)
      | none =>
        let r3 := if args.compile then compile_cmake_project env r2.1 args.threads
                  else (r2.1, (none : Option PyExc))
        match r3.2 with
        | some _ => (r3.1, Outcome.exit 1)
        | none => (r3.1, Outcome.exit 0)

/-- `main()` on a raw argument vector (`None` when argparse rejects it). -/
def script_main_argv (env : Env) (st : PState) (argv : List String) :
    Option (PState × Outcome) :=
  (parse_args argv).map (script_main env st)

/-- A world in which both tools are on the path and every external
invocation succeeds. -/
def envAll : Env :=
  { onPath := fun s => s == "cmake" || s == "compdb"
    cmakeConfigureOk := true
    compdbOk := true
    cmakeBuildOk := true
    dbContent := "DB"
    compdbOutput := "REFINED" }

/-- A world with no tool on the search path. -/
def envNone : Env :=
  { envAll with onPath := fun _ => false }

/-- A world where `cmake` is on the path but `compdb` is not. -/
def envNoCompdb : Env :=
  { envAll with onPath := fun s => s == "cmake" }

/-- A world where both tools are on the path but the `compdb` invocation
exits with a nonzero status. -/
def envBadCompdb : Env :=
  { envAll with compdbOk := false }

/-- Pristine starting state: empty filesystem, empty trace. -/
def st0 : PState := { cwd := ".", dirs := [], files := [], trace := [] }

theorem setFile_cwd (st : PState) (d n c : String) : (setFile st d n c).cwd = st.cwd := rfl

theorem setFile_dirs (st : PState) (d n c : String) : (setFile st d n c).dirs = st.dirs := rfl

theorem setFile_trace (st : PState) (d n c : String) : (setFile st d n c).trace = st.trace := rfl

theorem tmpCleanup_cwd (st : PState) (d : String) : (tmpCleanup st d).cwd = st.cwd := rfl

theorem tmpCleanup_trace (st : PState) (d : String) : (tmpCleanup st d).trace = st.trace := rfl

/-- The released directory is gone from the directory list. -/
theorem tmpCleanup_dirs_self (st : PState) (d : String) : d ∉ (tmpCleanup st d).dirs := by
  intro hmem
  have := List.of_mem_filter (p := fun x => decide (x ≠ d)) hmem
  simp at this

/-- No file under the released directory survives. -/
theorem tmpCleanup_files_self (st : PState) (d n c : String) :
    ((d, n), c) ∉ (tmpCleanup st d).files := by
  intro hmem
  have := List.of_mem_filter (p := fun (e : (String × String) × String) => decide (e.1.1 ≠ d)) hmem
  simp at this

/-- Filtering by a predicate implied by the search predicate does not
change the result of `find?`. -/
theorem find?_filter_imp {A : Type} (l : List A) (p q : A → Bool)
    (h : ∀ a, p a = true → q a = true) :
    (l.filter q).find? p = l.find? p := by
  induction l with
  | nil => rfl
  | cons x xs ih =>
    by_cases hq : q x = true
    · rw [List.filter_cons_of_pos hq]
      by_cases hp : p x = true
      · rw [List.find?_cons_of_pos _ hp, List.find?_cons_of_pos _ hp]
      · rw [List.find?_cons_of_neg _ hp, List.find?_cons_of_neg _ hp, ih]
    · have hp : ¬ p x = true := fun hpx => hq (h x hpx)
      rw [List.filter_cons_of_neg hq, List.find?_cons_of_neg _ hp, ih]

/-- Reading a file outside the released directory is unaffected. -/
theorem getFile_tmpCleanup_ne (st : PState) (d d2 n : String) (h : d2 ≠ d) :
    getFile (tmpCleanup st d) d2 n = getFile st d2 n := by
  unfold getFile tmpCleanup
  simp only
  rw [find?_filter_imp]
  intro a ha
  simp only [decide_eq_true_eq] at ha ⊢
  rw [ha]
  exact h

/-- Reading inside the released directory yields nothing. -/
theorem getFile_tmpCleanup_self (st : PState) (d n : String) :
    getFile (tmpCleanup st d) d n = none := by
  unfold getFile tmpCleanup
  simp only
  have hfind : List.find? (fun (e : (String × String) × String) => decide (e.1 = (d, n)))
      (List.filter (fun (e : (String × String) × String) => decide (e.1.1 ≠ d)) st.files) =
        none := by
    rw [List.find?_eq_none]
    intro x hx
    have hq := List.of_mem_filter hx
    simp only [decide_eq_true_eq] at hq ⊢
    intro hk
    exact hq (by rw [hk])
  rw [hfind]
  rfl

/-- Reading back the file just written. -/
theorem getFile_setFile_self (st : PState) (d n c : String) :
    getFile (setFile st d n c) d n = some c := by
  simp [getFile, setFile, List.find?]

/-- Writing one file does not change any other file. -/
theorem getFile_setFile_ne (st : PState) (d n c d2 n2 : String)
    (h : (d2, n2) ≠ (d, n)) :
    getFile (setFile st d n c) d2 n2 = getFile st d2 n2 := by
  unfold getFile setFile
  simp only
  have hhead : ¬ ((fun (e : (String × String) × String) => decide (e.1 = (d2, n2)))
      ((d, n), c) = true) := by
    simp only [decide_eq_true_eq]
    exact fun hk => h hk.symm
  rw [List.find?_cons_of_neg (p := fun (e : (String × String) × String) => decide (e.1 = (d2, n2))) _ hhead,
      find?_filter_imp]
  intro a ha
  simp only [decide_eq_true_eq] at ha ⊢
  rw [ha]
  exact h

theorem movePath_cwd (st : PState) (src dst : String) : (movePath st src dst).1.cwd = st.cwd := by
  unfold movePath
  simp only
  split
  · rfl
  · rfl

theorem movePath_trace (st : PState) (src dst : String) :
    (movePath st src dst).1.trace = st.trace := by
  unfold movePath
  simp only
  split
  · rfl
  · rfl

theorem movePath_dirs (st : PState) (src dst : String) :
    (movePath st src dst).1.dirs = st.dirs := by
  unfold movePath
  simp only
  split
  · rfl
  · rfl

/-- The shell model never touches the command trace. -/
theorem shellRun_trace (env : Env) (st : PState) (cmd : String) :
    (shellRun env st cmd).1.trace = st.trace := by
  unfold shellRun
  split
  · split
    · rfl
    · split
      · rfl
      · rfl
  · split
    · rfl
    · rfl
  · exact movePath_trace _ _ _
  · dsimp only
    split
    · rfl
    · rfl
  · rfl
  · split
    · rfl
    · rfl
  · rfl
  · rfl

/-- `runCmd` appends exactly the issued command string to the trace. -/
theorem runCmd_trace (env : Env) (st : PState) (cmd : String) :
    (runCmd env st cmd).1.trace = st.trace ++ [cmd] := by
  unfold runCmd
  simp only
  rw [shellRun_trace]

/-- Parsing never changes `threads` unless a `-t` or `--threads` token is
consumed. -/
theorem parse_tokens_threads_eq (argv : List String) (a0 : Args) :
    ∀ a : Args, parse_tokens argv a0 = some a → "-t" ∉ argv → "--threads" ∉ argv →
      a.threads = a0.threads := by
  induction argv, a0 using parse_tokens.induct with
  | case1 a0 =>
    intro a h _ _
    simp only [parse_tokens, Option.some.injEq] at h
    rw [← h]
  | case2 v rest a0 ih =>
    intro a h ht htl
    simp only [parse_tokens] at h
    exact ih a h (fun hm => ht (by simp [hm])) (fun hm => htl (by simp [hm]))
  | case3 v rest a0 ih =>
    intro a h ht htl
    simp only [parse_tokens] at h
    exact ih a h (fun hm => ht (by simp [hm])) (fun hm => htl (by simp [hm]))
  | case4 rest a0 ih =>
    intro a h ht htl
    simp only [parse_tokens] at h
    exact ih a h (fun hm => ht (by simp [hm])) (fun hm => htl (by simp [hm]))
  | case5 rest a0 ih =>
    intro a h ht htl
    simp only [parse_tokens] at h
    exact ih a h (fun hm => ht (by simp [hm])) (fun hm => htl (by simp [hm]))
  | case6 v rest a0 n hv ih =>
    intro a h ht htl
    exact absurd (List.mem_cons_self _ _) ht
  | case7 v rest a0 hv =>
    intro a h ht htl
    exact absurd (List.mem_cons_self _ _) ht
  | case8 v rest a0 n hv ih =>
    intro a h ht htl
    exact absurd (List.mem_cons_self _ _) htl
  | case9 v rest a0 hv =>
    intro a h ht htl
    exact absurd (List.mem_cons_self _ _) htl
  | case10 rest a0 ih =>
    intro a h ht htl
    simp only [parse_tokens] at h
    exact ih a h (fun hm => ht (by simp [hm])) (fun hm => htl (by simp [hm]))
  | case11 t x h1 h2 h3 h4 h5 h6 h7 h8 =>
    intro a h ht htl
    rw [parse_tokens.eq_def] at h
    split at h
    · exact absurd rfl (fun hk => h1 hk)
    · exact (h2 _ _ rfl).elim
    · exact (h3 _ _ rfl).elim
    · exact (h4 _ rfl).elim
    · exact (h5 _ rfl).elim
    · exact (h6 _ _ rfl).elim
    · exact (h7 _ _ rfl).elim
    · exact (h8 _ rfl).elim
    · exact Option.noConfusion h

/-- Claim C1 (code bug).  The `--not_update_clangd_db` flag is declared
with `action='store_false'` but also `default=False`, so the parsed value
is `False` with or without the flag and the flag cannot disable the
Database Refinement Step, contrary to its own help text ("compdb will not
be used, and no compile_commands.json will be generated").  Concretely:
parsing the flag yields exactly the default namespace; even with the flag
given, `find_required_tools` still demands `compdb`; and a run of `main`
on the flagged configuration still issues the `compdb` command. -/
theorem claim1_flag_cannot_disable_refinement :
    parse_args ["--not_update_clangd_db"] = some defaultArgs ∧
    defaultArgs.not_update_clangd_db = false ∧
    find_required_tools envNoCompdb defaultArgs = some compdbMissingMsg ∧
    "compdb -p tmpdir0 list > \"compile_commands.json\"" ∈
      (script_main envAll st0 defaultArgs).1.trace := by decide

/-- Claim C2.  When `cmake` is not on the search path, `main` returns exit
code 1 with the state completely unchanged: no directory is created, the
working directory is untouched and the command trace is untouched, so no
external build tool was invoked. -/
theorem claim2_missing_cmake_exits_without_mutation (env : Env) (st : PState) (args : Args)
    (h : terminal_program_exists env "cmake" = false) :
    script_main env st args = (st, Outcome.exit 1) := by
  simp [script_main, find_required_tools, h]

theorem claim2_witness : script_main envNone st0 defaultArgs = (st0, Outcome.exit 1) :=
  claim2_missing_cmake_exits_without_mutation envNone st0 defaultArgs (by decide)

/-- Claim C3.  With database refinement requested and `compdb` absent,
`main` returns 1 with the state unchanged — in particular the
build-configuration tool was never invoked (empty trace delta) — and when
`cmake` is missing as well, the diagnostic produced is the `cmake` one,
because `find_required_tools` checks `cmake` first. -/
theorem claim3_compdb_missing_exits_before_cmake (env : Env) (st : PState) (args : Args)
    (hdb : args.not_update_clangd_db = false)
    (hc : terminal_program_exists env "compdb" = false) :
    script_main env st args = (st, Outcome.exit 1) ∧
    (terminal_program_exists env "cmake" = false →
      find_required_tools env args = some cmakeMissingMsg) := by
  constructor
  · cases hk : terminal_program_exists env "cmake" with
    | false => simp [script_main, find_required_tools, hk]
    | true => simp [script_main, find_required_tools, hk, hdb, hc]
  · intro hk
    simp [find_required_tools, hk]

theorem claim3_witness :
    script_main envNone st0 defaultArgs = (st0, Outcome.exit 1) ∧
    find_required_tools envNone defaultArgs = some cmakeMissingMsg := by
  have h := claim3_compdb_missing_exits_before_cmake envNone st0 defaultArgs
    (by decide) (by decide)
  exact ⟨h.1, h.2 (by decide)⟩

/-- Claim C5 (code bug).  `try_construct_cmake_files` is documented to
throw `OSError` as well as `CalledProcessError`, but `main` only catches
the latter around it (unlike the two later steps).  With the accepted
build directory `"a b"`, the shell `mkdir -p a b` succeeds (creating two
directories) and `os.chdir('a b')` raises `OSError`, which escapes `main`
instead of being turned into a return of 1. -/
theorem claim5_oserror_escapes_main :
    parse_args ["-b", "a b"] = some { defaultArgs with build := "a b" } ∧
    (script_main envAll st0 { defaultArgs with build := "a b" }).2 =
      Outcome.uncaught PyExc.osError := by decide

/-- Claim C7, counterexample.  "For every build-directory path the
creation step succeeds" is false: the path `""` is accepted by the parser
but `mkdir -p ` (no operand after shell tokenization) fails — independently
of any pre-existing directory; likewise the accepted path `"x;false"`
makes the shell run a trailing failing command, so the creation step exits
nonzero there too. -/
theorem claim7_counterexample_empty_path :
    parse_args ["-b", ""] = some { defaultArgs with build := "" } ∧
    (try_construct_cmake_files envAll st0 "").2 = some PyExc.calledProcessError ∧
    (try_construct_cmake_files envAll st0 "").1.trace = ["mkdir -p "] ∧
    parse_args ["-b", "x;false"] = some { defaultArgs with build := "x;false" } ∧
    (try_construct_cmake_files envAll st0 "x;false").2 =
      some PyExc.calledProcessError := by decide

/-- Claim C7, amended.  For every build-directory path whose shell
tokenization contributes at least one operand, all of them plain words
(alphanumerics and `.` `/` `_` `-`, not beginning with `-` — so no shell
quoting, separator, expansion or option parsing is involved), the
`mkdir -p` creation step succeeds in every state — in particular both
when the directory does not yet exist and when it already exists — so
re-running the pipeline against an existing build directory never fails
at directory creation. -/
theorem claim7_mkdir_idempotent (env : Env) (st : PState) (b : String) (ops : List String)
    (htok : shellTokens s!"mkdir -p {b}" = "mkdir" :: "-p" :: ops)
    (hops : ops ≠ [])
    (hplain : ops.all plainOperand = true) :
    (runCmd env st s!"mkdir -p {b}").2 = none ∧
    (runCmd env { st with dirs := b :: st.dirs } s!"mkdir -p {b}").2 = none := by
  cases ops with
  | nil => exact absurd rfl hops
  | cons o os =>
    constructor
    · simp only [runCmd, shellRun, htok]
      rw [hplain]
      rfl
    · simp only [runCmd, shellRun, htok]
      rw [hplain]
      rfl

theorem claim7_witness :
    (runCmd envAll st0 "mkdir -p build2").2 = none ∧
    (runCmd envAll { st0 with dirs := "build2" :: st0.dirs } "mkdir -p build2").2 = none :=
  claim7_mkdir_idempotent envAll st0 "build2" ["build2"] (by decide) (by decide) (by decide)

/-- Claim C8, counterexample.  The parser performs no positivity check on
`-t / --threads` (`type=int` only): the command line `-t 0` is accepted and
produces a thread count of 0, which is not strictly positive. -/
theorem claim8_counterexample_zero_threads :
    parse_args ["-t", "0"] = some { defaultArgs with threads := 0 } ∧
    ¬ (0 < ({ defaultArgs with threads := 0 } : Args).threads) := by decide

/-- Claim C8, amended.  The positivity guarantee holds only by default:
for every command line accepted by the parser that does not mention
`-t` or `--threads`, the resulting thread count is the default 4 and hence
strictly positive (explicitly supplied values are unvalidated). -/
theorem claim8_threads_positive_when_defaulted (argv : List String) (a : Args)
    (hparse : parse_args argv = some a)
    (ht : "-t" ∉ argv) (htl : "--threads" ∉ argv) :
    0 < a.threads := by
  have h := parse_tokens_threads_eq argv defaultArgs a hparse ht htl
  rw [h]
  decide

theorem claim8_witness : 0 < ({ defaultArgs with compile := true } : Args).threads :=
  claim8_threads_positive_when_defaulted ["-c"] { defaultArgs with compile := true }
    (by decide) (by decide) (by decide)

/-- Claim C9.  There is a build-directory argument for which the unquoted
shell interpolation makes the `mkdir` command and the `os.chdir` call
disagree: for `"a b"` the mkdir step succeeds but creates the two
directories `a` and `b`, not the single directory `a b`, and the
subsequent `chdir` into `a b` fails with `OSError`. -/
theorem claim9_mkdir_chdir_mismatch :
    ∃ b : String,
      (try_construct_cmake_files envAll st0 b).2 = some PyExc.osError ∧
      b ∉ (try_construct_cmake_files envAll st0 b).1.dirs ∧
      (try_construct_cmake_files envAll st0 b).1.dirs ≠ [b] ∧
      "a" ∈ (try_construct_cmake_files envAll st0 b).1.dirs ∧
      "b" ∈ (try_construct_cmake_files envAll st0 b).1.dirs :=
  ⟨"a b", by decide⟩

theorem seqCmd_none (env : Env) (st : PState) (cmd : String) :
    seqCmd env (st, none) cmd = runCmd env st cmd := rfl

theorem seqCmd_some (env : Env) (st : PState) (e : PyExc) (cmd : String) :
    seqCmd env (st, some e) cmd = (st, some e) := rfl

/-- Claim C4.  The scoped temporary directory of the Database Refinement
Step is gone from the final state of `compile_database` — directories and
files alike — on every exit path (the conclusion holds for every
environment, so for failing `mv`, failing `compdb`, and the success path
alike); and whenever the refinement step raises, `main` catches the
exception and returns exit code 1. -/
theorem claim4_tmpdir_removed_on_all_paths (env : Env) (st : PState) :
    TMPDIR ∉ (compile_database env st).1.dirs ∧
    (∀ n c, ((TMPDIR, n), c) ∉ (compile_database env st).1.files) ∧
    (∀ st1 args, find_required_tools env args = none →
      args.not_update_clangd_db = false →
      (try_construct_cmake_files env st1 args.build).2 = none →
      (compile_database env (try_construct_cmake_files env st1 args.build).1).2 ≠ none →
      (script_main env st1 args).2 = Outcome.exit 1) := by
  refine ⟨?_, ?_, ?_⟩
  · simp only [compile_database]
    exact tmpCleanup_dirs_self _ _
  · intro n c
    simp only [compile_database]
    exact tmpCleanup_files_self _ _ _ _
  · intro st1 args hfind hdb hcon hfail
    rcases Option.eq_none_or_eq_some
        ((compile_database env (try_construct_cmake_files env st1 args.build).1).2) with
      hnone | ⟨e, he⟩
    · exact absurd hnone hfail
    · simp [script_main, hfind, hcon, hdb, he]

theorem claim4_witness :
    TMPDIR ∉ (compile_database envBadCompdb st0).1.dirs ∧
    (script_main envBadCompdb st0 defaultArgs).2 = Outcome.exit 1 := by
  have h := claim4_tmpdir_removed_on_all_paths envBadCompdb st0
  exact ⟨h.1, h.2.2 st0 defaultArgs (by decide) (by decide) (by decide) (by decide)⟩

theorem compile_cmake_project_trace (env : Env) (st : PState) (t : Int) :
    (compile_cmake_project env st t).1.trace =
      st.trace ++ [s!"cmake --build ./ --parallel {t}"] :=
  runCmd_trace env st _

/-- Claim C6.  Under a configuration that reaches the end of the pipeline,
the Compilation Step runs exactly when `-c / --compile` was given: without
it, `main` returns the post-refinement state unchanged with exit code 0
(no build-mode invocation at all); with it, exactly one further command is
issued, namely the build invocation carrying the configured thread count
as the parallelism hint. -/
theorem claim6_compile_step_iff_requested (env : Env) (st : PState) (args : Args)
    (hfind : find_required_tools env args = none)
    (hdb : args.not_update_clangd_db = false)
    (hcon : (try_construct_cmake_files env st args.build).2 = none)
    (href : (compile_database env (try_construct_cmake_files env st args.build).1).2 = none) :
    (args.compile = false →
      script_main env st args =
        ((compile_database env (try_construct_cmake_files env st args.build).1).1,
          Outcome.exit 0)) ∧
    (args.compile = true →
      (script_main env st args).1.trace =
        (compile_database env (try_construct_cmake_files env st args.build).1).1.trace ++
          [s!"cmake --build ./ --parallel {args.threads}"]) := by
  constructor
  · intro hc
    simp [script_main, hfind, hcon, hdb, href, hc]
  · intro hc
    have h1 : (script_main env st args).1 =
        (compile_cmake_project env
          (compile_database env (try_construct_cmake_files env st args.build).1).1
          args.threads).1 := by
      cases hz : (compile_cmake_project env
          (compile_database env (try_construct_cmake_files env st args.build).1).1
          args.threads).2 with
      | none => simp [script_main, hfind, hcon, hdb, href, hc, hz]
      | some e => simp [script_main, hfind, hcon, hdb, href, hc, hz]
    rw [h1, compile_cmake_project_trace]

def argsCompile8 : Args := { defaultArgs with compile := true, threads := 8 }

theorem claim6_witness :
    (script_main envAll st0 argsCompile8).1.trace =
      (compile_database envAll
        (try_construct_cmake_files envAll st0 argsCompile8.build).1).1.trace ++
        ["cmake --build ./ --parallel 8"] := by
  have h := claim6_compile_step_iff_requested envAll st0 argsCompile8
    (by decide) (by decide) (by decide) (by decide)
  exact (h.2 (by decide)).trans (by decide)

theorem shellRun_mv_db (env : Env) (st : PState) :
    shellRun env st "mv ./compile_commands.json tmpdir0/compile_commands.json" =
      movePath st "./compile_commands.json" "tmpdir0/compile_commands.json" := rfl

theorem splitPath_dot_db (st : PState) :
    splitPath st "./compile_commands.json" = (st.cwd, COMPILATION_DATABASE) := rfl

theorem splitPath_tmp_db (st : PState) :
    splitPath st "tmpdir0/compile_commands.json" = (TMPDIR, COMPILATION_DATABASE) := rfl

theorem movePath_db (st : PState) (c : String)
    (h : getFile st st.cwd COMPILATION_DATABASE = some c) :
    movePath st "./compile_commands.json" "tmpdir0/compile_commands.json" =
      (setFile
        { st with files := st.files.filter (fun e => e.1 ≠ (st.cwd, COMPILATION_DATABASE)) }
        TMPDIR COMPILATION_DATABASE c, true) := by
  unfold movePath
  simp only [splitPath_dot_db, splitPath_tmp_db]
  rw [h]

theorem shellRun_compdb_fails (env : Env) (st : PState) (h : env.compdbOk = false) :
    shellRun env st "compdb -p tmpdir0 list > \"compile_commands.json\"" =
      (setFile st st.cwd COMPILATION_DATABASE "", false) := by
  have hstep : shellRun env st "compdb -p tmpdir0 list > \"compile_commands.json\"" =
      (let st1 := setFile st st.cwd (unquote "\"compile_commands.json\"") "";
       if (env.compdbOk && hasFile st1 TMPDIR COMPILATION_DATABASE) = true then
         (setFile st1 st.cwd (unquote "\"compile_commands.json\"") env.compdbOutput, true)
       else (st1, false)) := rfl
  rw [hstep, h]
  rfl

theorem compile_database_compdb_fails (env : Env) (st : PState) (c : String)
    (henv : env.compdbOk = false)
    (hfile : getFile st st.cwd COMPILATION_DATABASE = some c) :
    compile_database env st =
      (tmpCleanup
        (setFile
          (setFile
            { st with
                dirs := TMPDIR :: st.dirs,
                files := st.files.filter (fun e => e.1 ≠ (st.cwd, COMPILATION_DATABASE)),
                trace := (st.trace ++
                    ["mv ./compile_commands.json tmpdir0/compile_commands.json"]) ++
                  ["compdb -p tmpdir0 list > \"compile_commands.json\""] }
            TMPDIR COMPILATION_DATABASE c)
          st.cwd COMPILATION_DATABASE "")
        TMPDIR,
       some PyExc.calledProcessError) := by
  have hrun1 : runCmd env { st with dirs := TMPDIR :: st.dirs }
      "mv ./compile_commands.json tmpdir0/compile_commands.json" =
      (setFile
        { st with
            dirs := TMPDIR :: st.dirs,
            files := st.files.filter (fun e => e.1 ≠ (st.cwd, COMPILATION_DATABASE)),
            trace := st.trace ++ ["mv ./compile_commands.json tmpdir0/compile_commands.json"] }
        TMPDIR COMPILATION_DATABASE c, none) := by
    unfold runCmd
    dsimp only
    rw [shellRun_mv_db, movePath_db _ c]
    · rfl
    · exact hfile
  have hrun2 : runCmd env
      (setFile
        { st with
            dirs := TMPDIR :: st.dirs,
            files := st.files.filter (fun e => e.1 ≠ (st.cwd, COMPILATION_DATABASE)),
            trace := st.trace ++ ["mv ./compile_commands.json tmpdir0/compile_commands.json"] }
        TMPDIR COMPILATION_DATABASE c)
      "compdb -p tmpdir0 list > \"compile_commands.json\"" =
      (setFile
        (setFile
          { st with
              dirs := TMPDIR :: st.dirs,
              files := st.files.filter (fun e => e.1 ≠ (st.cwd, COMPILATION_DATABASE)),
              trace := (st.trace ++
                  ["mv ./compile_commands.json tmpdir0/compile_commands.json"]) ++
                ["compdb -p tmpdir0 list > \"compile_commands.json\""] }
          TMPDIR COMPILATION_DATABASE c)
        st.cwd COMPILATION_DATABASE "",
       some PyExc.calledProcessError) := by
    unfold runCmd
    dsimp only
    rw [shellRun_compdb_fails _ _ henv]
    rfl
  unfold compile_database
  dsimp only
  rw [show (s!"mv ./{COMPILATION_DATABASE} {TMPDIR}/{COMPILATION_DATABASE}" : String) =
        "mv ./compile_commands.json tmpdir0/compile_commands.json" from rfl]
  rw [hrun1, seqCmd_none]
  rw [show (s!"compdb -p {TMPDIR} list > \"{COMPILATION_DATABASE}\"" : String) =
        "compdb -p tmpdir0 list > \"compile_commands.json\"" from rfl]
  rw [hrun2, seqCmd_some, seqCmd_some]

/-- Claim C10.  The Database Refinement Step is not atomic: when the
`compdb` invocation fails, the step raises `CalledProcessError`, the
original `compile_commands.json` — already moved into the temporary
directory — is deleted together with that directory and is not restored;
after the failing run the working directory holds an empty
`compile_commands.json` created by the shell output redirection (so in
particular not the database that the build-configuration tool had
produced), the temporary copy is gone, and the temporary directory itself
is gone. -/
theorem claim10_refinement_not_atomic (env : Env) (st : PState) (c : String)
    (henv : env.compdbOk = false)
    (hfile : getFile st st.cwd COMPILATION_DATABASE = some c)
    (hcwd : st.cwd ≠ TMPDIR) :
    (compile_database env st).2 = some PyExc.calledProcessError ∧
    (compile_database env st).1.cwd = st.cwd ∧
    getFile (compile_database env st).1 st.cwd COMPILATION_DATABASE = some "" ∧
    (c ≠ "" → getFile (compile_database env st).1 st.cwd COMPILATION_DATABASE ≠ some c) ∧
    getFile (compile_database env st).1 TMPDIR COMPILATION_DATABASE = none ∧
    TMPDIR ∉ (compile_database env st).1.dirs := by
  have hcd := compile_database_compdb_fails env st c henv hfile
  rw [hcd]
  dsimp only
  refine ⟨rfl, rfl, ?_, ?_, ?_, ?_⟩
  · rw [getFile_tmpCleanup_ne _ _ _ _ hcwd, getFile_setFile_self]
  · intro hc hsome
    rw [getFile_tmpCleanup_ne _ _ _ _ hcwd, getFile_setFile_self] at hsome
    exact hc (Option.some.inj hsome).symm
  · exact getFile_tmpCleanup_self _ _ _
  · exact tmpCleanup_dirs_self _ _

/-- State after a successful construction step: the build directory holds
the database produced by cmake. -/
def stDb : PState :=
  { cwd := "./build", dirs := ["./build"],
    files := [(("./build", "compile_commands.json"), "DB")], trace := [] }

theorem claim10_witness :
    (compile_database envBadCompdb stDb).2 = some PyExc.calledProcessError ∧
    getFile (compile_database envBadCompdb stDb).1 "./build" COMPILATION_DATABASE = some "" ∧
    getFile (compile_database envBadCompdb stDb).1 TMPDIR COMPILATION_DATABASE = none := by
  have h := claim10_refinement_not_atomic envBadCompdb stDb "DB"
    (by decide) (by decide) (by decide)
  exact ⟨h.1, h.2.2.1, h.2.2.2.2.1⟩
